import Mathlib

/-!
Verification of the `servicepytan` authentication module (`servicepytan/auth.py`).

The Python source is shallowly embedded below:
* Python `str` values that may be `None` are `Option String` (with `none` = Python `None`);
* the connection-config dictionary is an association list `PyDict` preserving
  Python dict insertion order; assignment to an existing key is in-place update;
* the process environment (after `load_dotenv`) is an explicit association list
  passed to the resolver;
* a supplied config file is passed as its parsed JSON object (an association
  list of string keys to string values), `none` meaning no file was supplied;
* the HTTP transport is an explicit oracle `TokenRequest → HttpResponse`;
  `request_auth_token` returns the list of requests it issued, the diagnostics
  it printed, and its outcome (`Except` models raised exceptions).
-/

/-- Embedding of the Python `ApiEnvironment` `StrEnum`
(`PRODUCTION = "production"`, `INTEGRATION = "integration"`); a `StrEnum`
member compares equal to its string value. -/
inductive ApiEnvironment where
  | PRODUCTION
  | INTEGRATION
deriving DecidableEq

/-- The string value of an `ApiEnvironment` member. -/
def ApiEnvironment.value : ApiEnvironment → String
  | .PRODUCTION => "production"
  | .INTEGRATION => "integration"

/-- Embeds `get_auth_root_url`: `"production"` maps to the production auth
root, every other string to the integration auth root. -/
def get_auth_root_url (env : String) : String :=
  if env == ApiEnvironment.PRODUCTION.value then
    "https://auth.servicetitan.io"
  else
    "https://auth-integration.servicetitan.io"

/-- Embeds `get_api_root_url`: `"production"` maps to the production API
root, every other string to the integration API root. -/
def get_api_root_url (env : String) : String :=
  if env == ApiEnvironment.PRODUCTION.value then
    "https://api.servicetitan.io"
  else
    "https://api-integration.servicetitan.io"

/-- Embeds the `AUTH_VARIABLES` list of the seven recognized
environment-variable / config-file key names. -/
def AUTH_VARIABLES : List String := [
  "SERVICETITAN_APP_KEY",
  "SERVICETITAN_TENANT_ID",
  "SERVICETITAN_CLIENT_ID",
  "SERVICETITAN_CLIENT_SECRET",
  "SERVICETITAN_APP_ID",
  "SERVICETITAN_TIMEZONE",
  "SERVICETITAN_API_ENVIRONMENT"]

/-- A Python dict with string keys and possibly-`None` string values, as an
insertion-ordered association list. -/
abbrev PyDict := List (String × Option String)

/-- A parsed JSON config file: a flat JSON object with string values. -/
abbrev JsonFile := List (String × String)

/-- A process-environment snapshot (`os.environ` after `load_dotenv`). -/
abbrev EnvVars := List (String × String)

/-- Python dict assignment `d[k] = v`: updates the existing entry in place,
appends otherwise (in `servicepytan_connect` the key always exists). -/
def dictSet (d : PyDict) (k : String) (v : Option String) : PyDict :=
  if d.any (fun p => p.1 == k) then
    d.map (fun p => if p.1 == k then (p.1, v) else p)
  else
    d ++ [(k, v)]

/-- Look a key up in a `PyDict`: `some v` when the key is present with Python
value `v` (`v = none` is Python `None`), `none` when the key is missing. -/
def dictFind (d : PyDict) (k : String) : Option (Option String) :=
  (d.find? (fun p => p.1 == k)).map (fun p => p.2)

/-- Python `creds.get(k, d)` on a parsed JSON object. -/
def jsonGetD (creds : JsonFile) (k : String) (d : String) : String :=
  match creds.find? (fun p => p.1 == k) with
  | some p => p.2
  | none => d

/-- Python `os.environ.get(k)`. -/
def envGet (env : EnvVars) (k : String) : Option String :=
  (env.find? (fun p => p.1 == k)).map (fun p => p.2)

/-- Python truthiness of an optional string: `None` and `""` are falsy. -/
def optTruthy : Option String → Bool
  | none => false
  | some s => s != ""

/-- Embeds the body of the environment-variable loop of
`servicepytan_connect` (lines 71–77): `auth_var = os.environ.get(var)`;
a truthy value is kept, otherwise the field defaults to `''` (with a printed
advisory). -/
def envResolve (env : EnvVars) (var : String) : String :=
  match envGet env var with
  | some auth_var => if auth_var != "" then auth_var else ""
  | none => ""

/-- The arguments of `servicepytan_connect`; optional parameters default to
`None`, the `timezone` parameter defaults to `"UTC"`.  A supplied
`config_file` path is represented by the parsed content of that file. -/
structure ConnectArgs where
  api_environment : String
  app_key : Option String := none
  tenant_id : Option String := none
  client_id : Option String := none
  client_secret : Option String := none
  app_id : Option String := none
  timezone : Option String := some "UTC"
  config_file : Option JsonFile := none

/-- The `elif` guard of `servicepytan_connect`:
`not api_environment or not app_key or not tenant_id or not client_id or
not client_secret`. -/
def coreMissing (a : ConnectArgs) : Bool :=
  a.api_environment == "" || !optTruthy a.app_key || !optTruthy a.tenant_id ||
  !optTruthy a.client_id || !optTruthy a.client_secret

/-- Embeds `servicepytan_connect`: builds the nine-key
`auth_config_object` from the explicit arguments, then overwrites the seven
`AUTH_VARIABLES` keys from the config file when one is supplied, else from
the environment when any of the five core fields is falsy. -/
def servicepytan_connect (env : EnvVars) (a : ConnectArgs) : PyDict :=
  let auth_config_object : PyDict := [
    ("SERVICETITAN_APP_KEY", a.app_key),
    ("SERVICETITAN_TENANT_ID", a.tenant_id),
    ("SERVICETITAN_CLIENT_ID", a.client_id),
    ("SERVICETITAN_CLIENT_SECRET", a.client_secret),
    ("SERVICETITAN_APP_ID", a.app_id),
    ("SERVICETITAN_TIMEZONE", a.timezone),
    ("SERVICETITAN_API_ENVIRONMENT", some a.api_environment),
    ("auth_root", some (get_auth_root_url a.api_environment)),
    ("api_root", some (get_api_root_url a.api_environment))]
  match a.config_file with
  | some creds =>
      AUTH_VARIABLES.foldl
        (fun d var => dictSet d var (some (jsonGetD creds var ""))) auth_config_object
  | none =>
      if coreMissing a then
        AUTH_VARIABLES.foldl
          (fun d var => dictSet d var (some (envResolve env var))) auth_config_object
      else
        auth_config_object

/-- A flat JSON object with string values, the shape of every JSON body the
module reads (`json.load` of the config file, `json.loads` of the token
response at the analyzed call sites). -/
abbrev JObj := List (String × String)

/-- Skip JSON whitespace. -/
def skipWs : List Char → List Char
  | [] => []
  | c :: cs => if c = ' ' || c = '\n' || c = '\t' || c = '\r' then skipWs cs else c :: cs

/-- Read the body of a JSON string literal up to the closing quote
(escape-free strings, which covers every literal the claims mention). -/
def takeStringBody : List Char → Option (String × List Char)
  | [] => none
  | c :: cs =>
    if c = '"' then some ("", cs)
    else
      match takeStringBody cs with
      | some (s, rest) => some (⟨c :: s.data⟩, rest)
      | none => none

/-- Parse a JSON string literal. -/
def parseStringLit : List Char → Option (String × List Char)
  | '"' :: cs => takeStringBody cs
  | _ => none

/-- Parse the members of a JSON object after the opening brace, consuming the
closing brace; `fuel` bounds the recursion. -/
def parseMembers : Nat → List Char → Option (JObj × List Char)
  | 0, _ => none
  | fuel + 1, cs =>
    match parseStringLit (skipWs cs) with
    | none => none
    | some (k, cs1) =>
      match skipWs cs1 with
      | ':' :: cs2 =>
        match parseStringLit (skipWs cs2) with
        | none => none
        | some (v, cs3) =>
          match skipWs cs3 with
          | ',' :: cs4 =>
            match parseMembers fuel cs4 with
            | some (obj, rest) => some ((k, v) :: obj, rest)
            | none => none
          | '}' :: cs4 => some ([(k, v)], cs4)
          | _ => none
      | _ => none

/-- Models Python `json.loads` restricted to flat objects of string values:
parses the whole input as one JSON object, raising (`Except.error`) on
anything else. -/
def json_loads (s : String) : Except String JObj :=
  match skipWs s.data with
  | '{' :: cs1 =>
    match skipWs cs1 with
    | '}' :: rest => if (skipWs rest).isEmpty then .ok [] else .error "Extra data"
    | cs2 =>
      match parseMembers (s.length + 1) cs2 with
      | some (obj, rest) =>
          if (skipWs rest).isEmpty then .ok obj else .error "Extra data"
      | none => .error "Expecting value"
  | _ => .error "Expecting value"

/-- An HTTP response as the `requests` library presents it: a numeric status
code and the body text. -/
structure HttpResponse where
  status_code : Nat
  text : String
deriving DecidableEq

/-- One HTTP request as issued by `requests.request`. -/
structure TokenRequest where
  method : String
  url : String
  data : String
  headers : List (String × String)
  params : List (String × String)
deriving DecidableEq

/-- `requests.codes.ok`, i.e. 200. -/
def requests_codes_ok : Nat := 200

/-- Models `Response.raise_for_status` of the `requests` library: it raises
`HTTPError` exactly when the status code is a 4xx client error or a 5xx
server error, and returns normally otherwise. -/
def raise_for_status (status_code : Nat) : Option Nat :=
  if 400 ≤ status_code && status_code < 600 then some status_code else none

/-- The exceptions the embedded functions can raise. -/
inductive PyError where
  | httpError (status : Nat)
  | jsonDecodeError (msg : String)
  | keyError (key : String)
deriving DecidableEq

deriving instance DecidableEq for Except

/-- The observable behaviour of one `request_auth_token` call: the HTTP
requests it issued (in order), the diagnostics it printed, and its returned
value or raised exception. -/
structure FetchResult where
  requests : List TokenRequest
  prints : List String
  outcome : Except PyError JObj
deriving DecidableEq

/-- Embeds `request_auth_token`: builds the token URL, the form payload and
headers, issues one POST through the transport oracle `http`, prints a
diagnostic and calls `raise_for_status` when the status is not
`requests.codes.ok`, and otherwise-unraised paths return
`json.loads(response.text)`. -/
def request_auth_token (http : TokenRequest → HttpResponse)
    (auth_root_url client_id client_secret : String) : FetchResult :=
  let url := auth_root_url ++ "/connect/token"
  let querystring := [("Content-Type", "application/x-www-form-urlencoded")]
  let payload := "grant_type=client_credentials&client_id=" ++ client_id ++
    "&client_secret=" ++ client_secret
  let headers := [("Content-Type", "application/x-www-form-urlencoded")]
  let req : TokenRequest := ⟨"POST", url, payload, headers, querystring⟩
  let response := http req
  if response.status_code != requests_codes_ok then
    let printed := ["Error fetching auth token: " ++ response.text]
    match raise_for_status response.status_code with
    | some status => ⟨[req], printed, .error (.httpError status)⟩
    | none =>
      match json_loads response.text with
      | .ok obj => ⟨[req], printed, .ok obj⟩
      | .error msg => ⟨[req], printed, .error (.jsonDecodeError msg)⟩
  else
    match json_loads response.text with
    | .ok obj => ⟨[req], [], .ok obj⟩
    | .error msg => ⟨[req], [], .error (.jsonDecodeError msg)⟩

/-- Python `str()` of a possibly-`None` string, as f-string interpolation
applies it: `str(None)` is `"None"`. -/
def pyStr : Option String → String
  | none => "None"
  | some s => s

/-- Python dict subscription `d[k]`: the value, or a raised `KeyError`. -/
def dictIndex (d : PyDict) (k : String) : Except PyError (Option String) :=
  match dictFind d k with
  | some v => .ok v
  | none => .error (.keyError k)

/-- Subscription `obj[k]` on a parsed JSON object: the value, or a raised
`KeyError`. -/
def jobjIndex (obj : JObj) (k : String) : Except PyError String :=
  match obj.find? (fun p => p.1 == k) with
  | some p => .ok p.2
  | none => .error (.keyError k)

/-- Embeds `get_auth_token`: reads client id, client secret and auth root
from the connection config (each subscription can raise `KeyError`), fetches
the token response and subscripts it at `"access_token"`. -/
def get_auth_token (http : TokenRequest → HttpResponse) (conn : PyDict) :
    Except PyError String :=
  match dictIndex conn "SERVICETITAN_CLIENT_ID" with
  | .error e => .error e
  | .ok client_id =>
    match dictIndex conn "SERVICETITAN_CLIENT_SECRET" with
    | .error e => .error e
    | .ok client_secret =>
      match dictIndex conn "auth_root" with
      | .error e => .error e
      | .ok auth_root =>
        match (request_auth_token http (pyStr auth_root)
            (pyStr client_id) (pyStr client_secret)).outcome with
        | .error e => .error e
        | .ok obj => jobjIndex obj "access_token"

/-- Embeds `get_app_key`: reads the app key from the connection config. -/
def get_app_key (conn : PyDict) : Except PyError (Option String) :=
  dictIndex conn "SERVICETITAN_APP_KEY"

/-- Embeds `get_tenant_id`: reads the tenant id from the connection config. -/
def get_tenant_id (conn : PyDict) : Except PyError (Option String) :=
  dictIndex conn "SERVICETITAN_TENANT_ID"

/-- Embeds `get_auth_headers`: a fresh token fetch plus the app key, as the
two-key headers dict (Python evaluates the `Authorization` value first). -/
def get_auth_headers (http : TokenRequest → HttpResponse) (conn : PyDict) :
    Except PyError PyDict :=
  match get_auth_token http conn with
  | .error e => .error e
  | .ok token =>
    match get_app_key conn with
    | .error e => .error e
    | .ok app_key => .ok [("Authorization", some token), ("ST-App-Key", app_key)]

/-- A character that `application/x-www-form-urlencoded` transmits without
percent-escaping. -/
def isUrlSafe (c : Char) : Bool :=
  c.isAlphanum || c = '-' || c = '_' || c = '.' || c = '~'

/-- The upper-case hexadecimal digit of a value below 16. -/
def hexDigit (n : Nat) : Char :=
  if n < 10 then Char.ofNat (48 + n) else Char.ofNat (55 + n)

/-- Percent-encode one character (code points below 256, which covers the
ASCII credentials at issue). -/
def percentEncode (c : Char) : List Char :=
  if isUrlSafe c then [c]
  else ['%', hexDigit (c.toNat / 16 % 16), hexDigit (c.toNat % 16)]

/-- URL-encode a string for a form-urlencoded body. -/
def urlencode (s : String) : String :=
  ⟨(s.data.map percentEncode).flatten⟩

/-- Stated from the spec's words, for comparison with the embedded code: the
URL-encoded token-request body consisting of the fields
`grant_type=client_credentials`, `client_id` and `client_secret`. -/
def specTokenRequestBody (client_id client_secret : String) : String :=
  "grant_type=" ++ urlencode "client_credentials" ++
  "&client_id=" ++ urlencode client_id ++
  "&client_secret=" ++ urlencode client_secret

/-! ### Closed forms of the three resolver branches -/

/-- When a config file is supplied, the resolved config takes the seven
`AUTH_VARIABLES` from the file (missing keys as `''`) and the two URL fields
from the `api_environment` argument; the explicit arguments are ignored. -/
theorem servicepytan_connect_file_eq (env : EnvVars) (a : ConnectArgs)
    (creds : JsonFile) (h : a.config_file = some creds) :
    servicepytan_connect env a = [
      ("SERVICETITAN_APP_KEY", some (jsonGetD creds "SERVICETITAN_APP_KEY" "")),
      ("SERVICETITAN_TENANT_ID", some (jsonGetD creds "SERVICETITAN_TENANT_ID" "")),
      ("SERVICETITAN_CLIENT_ID", some (jsonGetD creds "SERVICETITAN_CLIENT_ID" "")),
      ("SERVICETITAN_CLIENT_SECRET", some (jsonGetD creds "SERVICETITAN_CLIENT_SECRET" "")),
      ("SERVICETITAN_APP_ID", some (jsonGetD creds "SERVICETITAN_APP_ID" "")),
      ("SERVICETITAN_TIMEZONE", some (jsonGetD creds "SERVICETITAN_TIMEZONE" "")),
      ("SERVICETITAN_API_ENVIRONMENT", some (jsonGetD creds "SERVICETITAN_API_ENVIRONMENT" "")),
      ("auth_root", some (get_auth_root_url a.api_environment)),
      ("api_root", some (get_api_root_url a.api_environment))] := by
  unfold servicepytan_connect
  rw [h]
  rfl

/-- When no config file is supplied and some core field is falsy, the
resolved config takes the seven `AUTH_VARIABLES` from the environment
(missing or empty variables as `''`) and the two URL fields from the
`api_environment` argument. -/
theorem servicepytan_connect_env_eq (env : EnvVars) (a : ConnectArgs)
    (h1 : a.config_file = none) (h2 : coreMissing a = true) :
    servicepytan_connect env a = [
      ("SERVICETITAN_APP_KEY", some (envResolve env "SERVICETITAN_APP_KEY")),
      ("SERVICETITAN_TENANT_ID", some (envResolve env "SERVICETITAN_TENANT_ID")),
      ("SERVICETITAN_CLIENT_ID", some (envResolve env "SERVICETITAN_CLIENT_ID")),
      ("SERVICETITAN_CLIENT_SECRET", some (envResolve env "SERVICETITAN_CLIENT_SECRET")),
      ("SERVICETITAN_APP_ID", some (envResolve env "SERVICETITAN_APP_ID")),
      ("SERVICETITAN_TIMEZONE", some (envResolve env "SERVICETITAN_TIMEZONE")),
      ("SERVICETITAN_API_ENVIRONMENT", some (envResolve env "SERVICETITAN_API_ENVIRONMENT")),
      ("auth_root", some (get_auth_root_url a.api_environment)),
      ("api_root", some (get_api_root_url a.api_environment))] := by
  unfold servicepytan_connect
  rw [h1]
  simp only [h2, if_true]
  rfl

/-- When no config file is supplied and all five core fields are truthy, the
resolved config is exactly the dict of explicit arguments and derived URLs;
neither file nor environment is consulted. -/
theorem servicepytan_connect_explicit_eq (env : EnvVars) (a : ConnectArgs)
    (h1 : a.config_file = none) (h2 : coreMissing a = false) :
    servicepytan_connect env a = [
      ("SERVICETITAN_APP_KEY", a.app_key),
      ("SERVICETITAN_TENANT_ID", a.tenant_id),
      ("SERVICETITAN_CLIENT_ID", a.client_id),
      ("SERVICETITAN_CLIENT_SECRET", a.client_secret),
      ("SERVICETITAN_APP_ID", a.app_id),
      ("SERVICETITAN_TIMEZONE", a.timezone),
      ("SERVICETITAN_API_ENVIRONMENT", some a.api_environment),
      ("auth_root", some (get_auth_root_url a.api_environment)),
      ("api_root", some (get_api_root_url a.api_environment))] := by
  unfold servicepytan_connect
  rw [h1]
  simp only [h2, Bool.false_eq_true, if_false]

/-- The single request `request_auth_token` constructs: a POST to
`{auth_root_url}/connect/token`, the interpolated form payload, and the
form-urlencoded content type in both headers and query params. -/
def tokenRequestOf (auth_root_url client_id client_secret : String) : TokenRequest :=
  ⟨"POST", auth_root_url ++ "/connect/token",
   "grant_type=client_credentials&client_id=" ++ client_id ++
     "&client_secret=" ++ client_secret,
   [("Content-Type", "application/x-www-form-urlencoded")],
   [("Content-Type", "application/x-www-form-urlencoded")]⟩

/-! ### Helper lemmas about the embedded functions -/

/-- `request_auth_token` issues exactly the one constructed request, on every
path. -/
theorem request_auth_token_requests (http : TokenRequest → HttpResponse)
    (u c s : String) :
    (request_auth_token http u c s).requests = [tokenRequestOf u c s] := by
  simp only [request_auth_token, tokenRequestOf]
  split
  · split
    · rfl
    · split <;> rfl
  · split <;> rfl

/-- On a 200 response with a parsable body, `request_auth_token` prints
nothing and returns the whole parsed object. -/
theorem request_auth_token_ok (http : TokenRequest → HttpResponse)
    (u c s tx : String) (obj : JObj)
    (hresp : http (tokenRequestOf u c s) = ⟨200, tx⟩)
    (hparse : json_loads tx = .ok obj) :
    (request_auth_token http u c s).prints = [] ∧
    (request_auth_token http u c s).outcome = .ok obj := by
  simp only [request_auth_token]
  simp only [tokenRequestOf] at hresp
  rw [hresp]
  simp only [requests_codes_ok, bne_self_eq_false, Bool.false_eq_true, if_false, hparse]
  exact ⟨trivial, trivial⟩

/-- On a non-200 response, `request_auth_token` prints the diagnostic made of
the fixed prefix and the response body. -/
theorem request_auth_token_diag (http : TokenRequest → HttpResponse)
    (u c s tx : String) (st : Nat)
    (hresp : http (tokenRequestOf u c s) = ⟨st, tx⟩) (hst : st ≠ 200) :
    (request_auth_token http u c s).prints
      = ["Error fetching auth token: " ++ tx] := by
  simp only [request_auth_token]
  simp only [tokenRequestOf] at hresp
  rw [hresp]
  simp only [requests_codes_ok]
  rw [if_pos (by simp [hst])]
  split
  · rfl
  · split <;> rfl

/-- On a 4xx or 5xx response, `request_auth_token` raises the HTTP-status
error carrying that status. -/
theorem request_auth_token_raises (http : TokenRequest → HttpResponse)
    (u c s tx : String) (st : Nat)
    (hresp : http (tokenRequestOf u c s) = ⟨st, tx⟩)
    (h4 : 400 ≤ st) (h5 : st < 600) :
    (request_auth_token http u c s).outcome
      = .error (.httpError st) := by
  simp only [request_auth_token]
  simp only [tokenRequestOf] at hresp
  rw [hresp]
  simp only [requests_codes_ok]
  rw [if_pos (by simp; omega)]
  have hb : raise_for_status st = some st := by
    unfold raise_for_status
    rw [if_pos (by simp [h4, h5])]
  rw [hb]

/-- `creds.get(k, d)` falls back to the default when the key is absent. -/
theorem jsonGetD_of_not_found (creds : JsonFile) (k d : String)
    (h : creds.find? (fun p => p.1 == k) = none) : jsonGetD creds k d = d := by
  unfold jsonGetD
  rw [h]

/-- An environment variable that is unset resolves to the empty string. -/
theorem envResolve_of_none (env : EnvVars) (var : String)
    (h : envGet env var = none) : envResolve env var = "" := by
  unfold envResolve
  rw [h]

/-- In the config-file branch each recognized field is the file's value with
default `''`. -/
theorem dictFind_file_var (env : EnvVars) (a : ConnectArgs) (creds : JsonFile)
    (h : a.config_file = some creds) (k : String) (hk : k ∈ AUTH_VARIABLES) :
    dictFind (servicepytan_connect env a) k = some (some (jsonGetD creds k "")) := by
  rw [servicepytan_connect_file_eq env a creds h]
  fin_cases hk <;> rfl

/-- In the environment branch each recognized field is the resolved
environment value. -/
theorem dictFind_env_var (env : EnvVars) (a : ConnectArgs)
    (h1 : a.config_file = none) (h2 : coreMissing a = true)
    (k : String) (hk : k ∈ AUTH_VARIABLES) :
    dictFind (servicepytan_connect env a) k = some (some (envResolve env k)) := by
  rw [servicepytan_connect_env_eq env a h1 h2]
  fin_cases hk <;> rfl

/-- Percent-encoding leaves a safe character alone. -/
theorem percentEncode_of_safe (c : Char) (h : isUrlSafe c = true) :
    percentEncode c = [c] := by
  unfold percentEncode
  rw [if_pos h]

/-- Auxiliary: flattening the percent-encodings of safe characters is the
identity. -/
theorem flatten_percentEncode (l : List Char) (h : l.all isUrlSafe = true) :
    (l.map percentEncode).flatten = l := by
  induction l with
  | nil => rfl
  | cons c cs ih =>
    rw [List.all_cons, Bool.and_eq_true] at h
    rw [List.map_cons, List.flatten_cons, percentEncode_of_safe c h.1, ih h.2]
    rfl

/-- URL-encoding is the identity on strings of safe characters. -/
theorem urlencode_of_safe (s : String) (h : s.data.all isUrlSafe = true) :
    urlencode s = s := by
  unfold urlencode
  rw [flatten_percentEncode s.data h]

/-! ### Claims -/

/-- C1 counterexample: a config file containing only
`SERVICETITAN_APP_KEY = "X"` does not make every other of the nine fields the
empty string — the `auth_root` field of the result is the derived URL. -/
theorem C1_counterexample :
    dictFind (servicepytan_connect []
      { api_environment := "integration", app_key := some "ignored",
        config_file := some [("SERVICETITAN_APP_KEY", "X")] }) "auth_root"
      ≠ some (some "") := by decide

/-- C1 amended: with a config file containing exactly
`SERVICETITAN_APP_KEY = "X"`, the resolved config has app key `"X"` and the
other six recognized fields `""`, while `auth_root` and `api_root` hold the
URLs derived from the `api_environment` argument — regardless of the
explicit credential arguments passed alongside the file path. -/
theorem C1_config_file_branch (env : EnvVars) (a : ConnectArgs)
    (h : a.config_file = some [("SERVICETITAN_APP_KEY", "X")]) :
    servicepytan_connect env a = [
      ("SERVICETITAN_APP_KEY", some "X"),
      ("SERVICETITAN_TENANT_ID", some ""),
      ("SERVICETITAN_CLIENT_ID", some ""),
      ("SERVICETITAN_CLIENT_SECRET", some ""),
      ("SERVICETITAN_APP_ID", some ""),
      ("SERVICETITAN_TIMEZONE", some ""),
      ("SERVICETITAN_API_ENVIRONMENT", some ""),
      ("auth_root", some (get_auth_root_url a.api_environment)),
      ("api_root", some (get_api_root_url a.api_environment))] := by
  rw [servicepytan_connect_file_eq env a _ h]
  rfl

/-- Witness for C1: a concrete call whose explicit arguments the config file
overrides. -/
theorem C1_config_file_branch_witness :
    servicepytan_connect [("SERVICETITAN_TENANT_ID", "fromEnv")]
      { api_environment := "production", app_key := some "explicitKey",
        tenant_id := some "explicitTenant",
        config_file := some [("SERVICETITAN_APP_KEY", "X")] } = [
      ("SERVICETITAN_APP_KEY", some "X"),
      ("SERVICETITAN_TENANT_ID", some ""),
      ("SERVICETITAN_CLIENT_ID", some ""),
      ("SERVICETITAN_CLIENT_SECRET", some ""),
      ("SERVICETITAN_APP_ID", some ""),
      ("SERVICETITAN_TIMEZONE", some ""),
      ("SERVICETITAN_API_ENVIRONMENT", some ""),
      ("auth_root", some "https://auth.servicetitan.io"),
      ("api_root", some "https://api.servicetitan.io")] :=
  C1_config_file_branch _ _ rfl

/-- C2: with no config file and all five core fields non-empty, the resolved
config is exactly the dict of the passed values plus the derived URLs; the
result does not depend on the environment (it is the same for every `env`)
and no file is read. -/
theorem C2_explicit_args (env : EnvVars) (e k t c s : String)
    (app_id timezone : Option String)
    (he : e ≠ "") (hk : k ≠ "") (ht : t ≠ "") (hc : c ≠ "") (hs : s ≠ "") :
    servicepytan_connect env
      { api_environment := e, app_key := some k, tenant_id := some t,
        client_id := some c, client_secret := some s, app_id := app_id,
        timezone := timezone, config_file := none } = [
      ("SERVICETITAN_APP_KEY", some k),
      ("SERVICETITAN_TENANT_ID", some t),
      ("SERVICETITAN_CLIENT_ID", some c),
      ("SERVICETITAN_CLIENT_SECRET", some s),
      ("SERVICETITAN_APP_ID", app_id),
      ("SERVICETITAN_TIMEZONE", timezone),
      ("SERVICETITAN_API_ENVIRONMENT", some e),
      ("auth_root", some (get_auth_root_url e)),
      ("api_root", some (get_api_root_url e))] :=
  servicepytan_connect_explicit_eq env _ rfl
    (by simp [coreMissing, optTruthy, he, hk, ht, hc, hs])

/-- Witness for C2: concrete explicit credentials with a non-empty
environment that is visibly ignored. -/
theorem C2_explicit_args_witness :
    servicepytan_connect [("SERVICETITAN_APP_KEY", "fromEnv")]
      { api_environment := "production", app_key := some "k",
        tenant_id := some "t", client_id := some "c",
        client_secret := some "s" } = [
      ("SERVICETITAN_APP_KEY", some "k"),
      ("SERVICETITAN_TENANT_ID", some "t"),
      ("SERVICETITAN_CLIENT_ID", some "c"),
      ("SERVICETITAN_CLIENT_SECRET", some "s"),
      ("SERVICETITAN_APP_ID", none),
      ("SERVICETITAN_TIMEZONE", some "UTC"),
      ("SERVICETITAN_API_ENVIRONMENT", some "production"),
      ("auth_root", some "https://auth.servicetitan.io"),
      ("api_root", some "https://api.servicetitan.io")] :=
  C2_explicit_args _ "production" "k" "t" "c" "s" none (some "UTC")
    (by decide) (by decide) (by decide) (by decide) (by decide)

/-- C3 counterexample: with all five core fields explicit (no file, no
environment consulted) and `app_id` unsupplied, the `SERVICETITAN_APP_ID`
key holds Python `None`, not the empty string. -/
theorem C3_counterexample :
    dictFind (servicepytan_connect []
      { api_environment := "production", app_key := some "k",
        tenant_id := some "t", client_id := some "c",
        client_secret := some "s" }) "SERVICETITAN_APP_ID" = some none ∧
    dictFind (servicepytan_connect []
      { api_environment := "production", app_key := some "k",
        tenant_id := some "t", client_id := some "c",
        client_secret := some "s" }) "SERVICETITAN_APP_ID" ≠ some (some "") := by
  decide

/-- C3 amended: every resolved config contains exactly the nine keys in the
dict-literal order (no key is ever missing); a recognized field absent from a
supplied config file resolves to `""`, and a recognized field absent from the
environment resolves to `""` in the environment branch; only the
explicit-args branch can store Python `None` for an unsupplied optional
argument. -/
theorem C3_all_keys_present (env : EnvVars) (a : ConnectArgs) :
    (servicepytan_connect env a).map Prod.fst = [
      "SERVICETITAN_APP_KEY", "SERVICETITAN_TENANT_ID", "SERVICETITAN_CLIENT_ID",
      "SERVICETITAN_CLIENT_SECRET", "SERVICETITAN_APP_ID", "SERVICETITAN_TIMEZONE",
      "SERVICETITAN_API_ENVIRONMENT", "auth_root", "api_root"] ∧
    (∀ creds k, a.config_file = some creds → k ∈ AUTH_VARIABLES →
      creds.find? (fun p => p.1 == k) = none →
      dictFind (servicepytan_connect env a) k = some (some "")) ∧
    (∀ k, a.config_file = none → coreMissing a = true → k ∈ AUTH_VARIABLES →
      envGet env k = none →
      dictFind (servicepytan_connect env a) k = some (some "")) := by
  refine ⟨?_, ?_, ?_⟩
  · cases hcf : a.config_file with
    | none =>
      cases hcm : coreMissing a with
      | true =>
        rw [servicepytan_connect_env_eq env a hcf hcm]
        rfl
      | false =>
        rw [servicepytan_connect_explicit_eq env a hcf hcm]
        rfl
    | some creds =>
      rw [servicepytan_connect_file_eq env a creds hcf]
      rfl
  · intro creds k hcf hk hnone
    rw [dictFind_file_var env a creds hcf k hk, jsonGetD_of_not_found creds k "" hnone]
  · intro k hcf hcm hk hnone
    rw [dictFind_env_var env a hcf hcm k hk, envResolve_of_none env k hnone]

/-- Witness for C3: the key list of a concrete resolution, an absent file key
resolving to `""`, and an absent environment variable resolving to `""`. -/
theorem C3_all_keys_present_witness :
    (servicepytan_connect [] { api_environment := "" }).map Prod.fst = [
      "SERVICETITAN_APP_KEY", "SERVICETITAN_TENANT_ID", "SERVICETITAN_CLIENT_ID",
      "SERVICETITAN_CLIENT_SECRET", "SERVICETITAN_APP_ID", "SERVICETITAN_TIMEZONE",
      "SERVICETITAN_API_ENVIRONMENT", "auth_root", "api_root"] ∧
    dictFind (servicepytan_connect []
      { api_environment := "", config_file := some [("SERVICETITAN_APP_KEY", "X")] })
      "SERVICETITAN_TENANT_ID" = some (some "") ∧
    dictFind (servicepytan_connect [] { api_environment := "" })
      "SERVICETITAN_APP_KEY" = some (some "") := by
  refine ⟨(C3_all_keys_present [] { api_environment := "" }).1, ?_, ?_⟩
  · exact (C3_all_keys_present [] _).2.1 [("SERVICETITAN_APP_KEY", "X")]
      "SERVICETITAN_TENANT_ID" rfl (by decide) (by decide)
  · exact (C3_all_keys_present [] _).2.2 "SERVICETITAN_APP_KEY" rfl (by decide)
      (by decide) (by decide)

/-- C4 counterexample: with no config file, no core field supplied and no
environment variable set, the `auth_root` field holds the derived integration
URL — not a value filled from an environment variable, nor the empty-string
default the claim requires for all nine fields. -/
theorem C4_counterexample :
    dictFind (servicepytan_connect [] { api_environment := "" }) "auth_root"
      = some (some "https://auth-integration.servicetitan.io") ∧
    dictFind (servicepytan_connect [] { api_environment := "" }) "auth_root"
      ≠ some (some "") := by decide

/-- C4 amended: in the environment branch (no config file, at least one core
field falsy) the seven recognized fields are filled from the corresponding
environment variables with `""` as default for unset or empty variables,
while `auth_root` and `api_root` keep the URLs derived from the
`api_environment` argument. -/
theorem C4_env_branch (env : EnvVars) (a : ConnectArgs)
    (h1 : a.config_file = none) (h2 : coreMissing a = true) :
    servicepytan_connect env a = [
      ("SERVICETITAN_APP_KEY", some (envResolve env "SERVICETITAN_APP_KEY")),
      ("SERVICETITAN_TENANT_ID", some (envResolve env "SERVICETITAN_TENANT_ID")),
      ("SERVICETITAN_CLIENT_ID", some (envResolve env "SERVICETITAN_CLIENT_ID")),
      ("SERVICETITAN_CLIENT_SECRET", some (envResolve env "SERVICETITAN_CLIENT_SECRET")),
      ("SERVICETITAN_APP_ID", some (envResolve env "SERVICETITAN_APP_ID")),
      ("SERVICETITAN_TIMEZONE", some (envResolve env "SERVICETITAN_TIMEZONE")),
      ("SERVICETITAN_API_ENVIRONMENT", some (envResolve env "SERVICETITAN_API_ENVIRONMENT")),
      ("auth_root", some (get_auth_root_url a.api_environment)),
      ("api_root", some (get_api_root_url a.api_environment))] :=
  servicepytan_connect_env_eq env a h1 h2

/-- Witness for C4: one set environment variable is taken up, the others
default to `""`, and the URL fields stay derived from the argument. -/
theorem C4_env_branch_witness :
    servicepytan_connect [("SERVICETITAN_TENANT_ID", "envTenant")]
      { api_environment := "integration" } = [
      ("SERVICETITAN_APP_KEY", some ""),
      ("SERVICETITAN_TENANT_ID", some "envTenant"),
      ("SERVICETITAN_CLIENT_ID", some ""),
      ("SERVICETITAN_CLIENT_SECRET", some ""),
      ("SERVICETITAN_APP_ID", some ""),
      ("SERVICETITAN_TIMEZONE", some ""),
      ("SERVICETITAN_API_ENVIRONMENT", some ""),
      ("auth_root", some "https://auth-integration.servicetitan.io"),
      ("api_root", some "https://api-integration.servicetitan.io")] :=
  C4_env_branch _ _ rfl (by decide)

/-- C5: the URL-derivation functions are pure functions of the
environment-selector string — `"production"` yields the production URL pair,
and every other string (including `""`) yields the integration URL pair. -/
theorem C5_pure_url_functions (env : String) :
    (env = "production" →
      get_auth_root_url env = "https://auth.servicetitan.io" ∧
      get_api_root_url env = "https://api.servicetitan.io") ∧
    (env ≠ "production" →
      get_auth_root_url env = "https://auth-integration.servicetitan.io" ∧
      get_api_root_url env = "https://api-integration.servicetitan.io") := by
  constructor
  · rintro rfl
    exact ⟨rfl, rfl⟩
  · intro h
    unfold get_auth_root_url get_api_root_url
    rw [if_neg (by simp [ApiEnvironment.value, h]),
      if_neg (by simp [ApiEnvironment.value, h])]
    exact ⟨rfl, rfl⟩

/-- Witness for C5: the production pair, and the integration pair for
`"integration"` and `""`. -/
theorem C5_pure_url_functions_witness :
    get_auth_root_url "production" = "https://auth.servicetitan.io" ∧
    get_api_root_url "production" = "https://api.servicetitan.io" ∧
    get_auth_root_url "integration" = "https://auth-integration.servicetitan.io" ∧
    get_api_root_url "" = "https://api-integration.servicetitan.io" :=
  ⟨((C5_pure_url_functions "production").1 rfl).1,
   ((C5_pure_url_functions "production").1 rfl).2,
   ((C5_pure_url_functions "integration").2 (by decide)).1,
   ((C5_pure_url_functions "").2 (by decide)).2⟩

/-- C6 counterexample: a 302 response is not a success (2xx) status, yet
`request_auth_token` does not raise — `raise_for_status` only raises for
4xx/5xx — and instead returns the parsed body of the 302 response. -/
theorem C6_counterexample :
    (request_auth_token (fun _ => ⟨302, "\x7b\"a\": \"b\"\x7d"⟩) "u" "c" "s").outcome
      = Except.ok [("a", "b")] := by rfl

/-- C6 amended: for every response, `request_auth_token` issues exactly one
request (no retry); whenever the status is not 200 it prints the diagnostic
containing the response body; and it raises the HTTP-status error precisely
for 4xx/5xx statuses (other non-success statuses, such as 3xx, are not
raised and fall through to JSON parsing of the body). -/
theorem C6_no_retry_and_raise (http : TokenRequest → HttpResponse)
    (u c s tx : String) (st : Nat)
    (hresp : http (tokenRequestOf u c s) = ⟨st, tx⟩) :
    (request_auth_token http u c s).requests = [tokenRequestOf u c s] ∧
    (st ≠ 200 →
      (request_auth_token http u c s).prints
        = ["Error fetching auth token: " ++ tx]) ∧
    (400 ≤ st → st < 600 →
      (request_auth_token http u c s).outcome
        = Except.error (PyError.httpError st)) :=
  ⟨request_auth_token_requests http u c s,
   fun hst => request_auth_token_diag http u c s tx st hresp hst,
   fun h4 h5 => request_auth_token_raises http u c s tx st hresp h4 h5⟩

/-- Witness for C6: a 401 response produces one request, the diagnostic with
the body, and the raised HTTP-status error. -/
theorem C6_no_retry_and_raise_witness :
    (request_auth_token (fun _ => ⟨401, "unauthorized"⟩) "u" "c" "s").requests
      = [tokenRequestOf "u" "c" "s"] ∧
    (request_auth_token (fun _ => ⟨401, "unauthorized"⟩) "u" "c" "s").prints
      = ["Error fetching auth token: unauthorized"] ∧
    (request_auth_token (fun _ => ⟨401, "unauthorized"⟩) "u" "c" "s").outcome
      = Except.error (PyError.httpError 401) := by
  have h := C6_no_retry_and_raise (fun _ => ⟨401, "unauthorized"⟩) "u" "c" "s"
    "unauthorized" 401 rfl
  exact ⟨h.1, h.2.1 (by decide), h.2.2 (by decide) (by decide)⟩

/-- C7: when the token endpoint answers every request with status 200 and
body containing exactly `access_token = "abc123"`, `get_auth_headers`
returns exactly the two-key dict mapping `Authorization` to the raw token
`"abc123"` (no Bearer prefix) and `ST-App-Key` to the config's app key. -/
theorem C7_headers (http : TokenRequest → HttpResponse) (conn : PyDict)
    (app_key cid cs ar : Option String)
    (hhttp : ∀ req, http req = ⟨200, "\x7b\"access_token\": \"abc123\"\x7d"⟩)
    (h1 : dictFind conn "SERVICETITAN_CLIENT_ID" = some cid)
    (h2 : dictFind conn "SERVICETITAN_CLIENT_SECRET" = some cs)
    (h3 : dictFind conn "auth_root" = some ar)
    (h4 : dictFind conn "SERVICETITAN_APP_KEY" = some app_key) :
    get_auth_headers http conn
      = Except.ok [("Authorization", some "abc123"), ("ST-App-Key", app_key)] := by
  have hout := (request_auth_token_ok http (pyStr ar) (pyStr cid) (pyStr cs)
    "\x7b\"access_token\": \"abc123\"\x7d" [("access_token", "abc123")]
    (hhttp _) (by rfl)).2
  simp only [get_auth_headers, get_auth_token, get_app_key, dictIndex,
    h1, h2, h3, h4, hout, jobjIndex]
  rfl

/-- Witness for C7: a concrete config and a constant 200 transport. -/
theorem C7_headers_witness :
    get_auth_headers (fun _ => ⟨200, "\x7b\"access_token\": \"abc123\"\x7d"⟩)
      [("SERVICETITAN_APP_KEY", some "appKey"),
       ("SERVICETITAN_CLIENT_ID", some "cid"),
       ("SERVICETITAN_CLIENT_SECRET", some "csecret"),
       ("auth_root", some "https://auth-integration.servicetitan.io")]
      = Except.ok [("Authorization", some "abc123"), ("ST-App-Key", some "appKey")] :=
  C7_headers _ _ (some "appKey") (some "cid") (some "csecret")
    (some "https://auth-integration.servicetitan.io")
    (fun _ => rfl) rfl rfl rfl rfl

/-- C8 counterexample: with `client_secret = "a&b"` the single issued
request's body is the raw interpolation, which differs from the URL-encoded
body of the three fields (the `&` of the secret is not escaped). -/
theorem C8_counterexample :
    (request_auth_token (fun _ => ⟨200, "\x7b\x7d"⟩) "u" "cid" "a&b").requests.map
        TokenRequest.data
      = ["grant_type=client_credentials&client_id=cid&client_secret=a&b"] ∧
    (request_auth_token (fun _ => ⟨200, "\x7b\x7d"⟩) "u" "cid" "a&b").requests.map
        TokenRequest.data
      ≠ [specTokenRequestBody "cid" "a&b"] := by decide

/-- C8 amended: every token fetch issues exactly one POST to
`{auth_root}/connect/token` with the `application/x-www-form-urlencoded`
content type (in headers and query params) and the body obtained by direct
interpolation of `client_id` and `client_secret` into
`grant_type=client_credentials&client_id=...&client_secret=...`; that body
coincides with the URL-encoded body of the three fields exactly when the
credentials consist of URL-safe characters. -/
theorem C8_one_post (http : TokenRequest → HttpResponse) (u cid sec : String) :
    (request_auth_token http u cid sec).requests = [
      { method := "POST", url := u ++ "/connect/token",
        data := "grant_type=client_credentials&client_id=" ++ cid ++
          "&client_secret=" ++ sec,
        headers := [("Content-Type", "application/x-www-form-urlencoded")],
        params := [("Content-Type", "application/x-www-form-urlencoded")] }] ∧
    (cid.data.all isUrlSafe = true → sec.data.all isUrlSafe = true →
      "grant_type=client_credentials&client_id=" ++ cid ++ "&client_secret=" ++ sec
        = specTokenRequestBody cid sec) := by
  constructor
  · exact request_auth_token_requests http u cid sec
  · intro hcid hsec
    unfold specTokenRequestBody
    rw [urlencode_of_safe cid hcid, urlencode_of_safe sec hsec]
    rfl

/-- Witness for C8: safe credentials, where the raw body and the URL-encoded
body agree. -/
theorem C8_one_post_witness :
    (request_auth_token (fun _ => ⟨200, "\x7b\x7d"⟩) "u" "cid" "sec").requests = [
      { method := "POST", url := "u/connect/token",
        data := "grant_type=client_credentials&client_id=cid&client_secret=sec",
        headers := [("Content-Type", "application/x-www-form-urlencoded")],
        params := [("Content-Type", "application/x-www-form-urlencoded")] }] ∧
    "grant_type=client_credentials&client_id=cid&client_secret=sec"
      = specTokenRequestBody "cid" "sec" := by
  have h := C8_one_post (fun _ => ⟨200, "\x7b\x7d"⟩) "u" "cid" "sec"
  exact ⟨h.1, h.2 (by decide) (by decide)⟩

/-- C9: in the config-file branch the `auth_root` and `api_root` fields are
computed from the `api_environment` argument, not from the file's
`SERVICETITAN_API_ENVIRONMENT` value, even when the two differ. -/
theorem C9_urls_from_argument (env : EnvVars) (a : ConnectArgs) (creds : JsonFile)
    (h : a.config_file = some creds)
    (hdiff : jsonGetD creds "SERVICETITAN_API_ENVIRONMENT" "" ≠ a.api_environment) :
    dictFind (servicepytan_connect env a) "auth_root"
      = some (some (get_auth_root_url a.api_environment)) ∧
    dictFind (servicepytan_connect env a) "api_root"
      = some (some (get_api_root_url a.api_environment)) := by
  rw [servicepytan_connect_file_eq env a creds h]
  exact ⟨rfl, rfl⟩

/-- Witness for C9: the file says `production`, the argument says
`integration`; the URLs follow the argument. -/
theorem C9_urls_from_argument_witness :
    dictFind (servicepytan_connect []
      { api_environment := "integration",
        config_file := some [("SERVICETITAN_API_ENVIRONMENT", "production")] })
      "auth_root" = some (some "https://auth-integration.servicetitan.io") ∧
    dictFind (servicepytan_connect []
      { api_environment := "integration",
        config_file := some [("SERVICETITAN_API_ENVIRONMENT", "production")] })
      "api_root" = some (some "https://api-integration.servicetitan.io") :=
  C9_urls_from_argument [] _ [("SERVICETITAN_API_ENVIRONMENT", "production")]
    rfl (by decide)

/-- C10: on a 200 response `request_auth_token` returns the entire parsed
JSON object, not just the token; `get_auth_token` subscripts that object at
`"access_token"`, so when the parsed object lacks that key `get_auth_token`
raises a `KeyError` instead of returning a value. -/
theorem C10_whole_object_then_keyerror (http : TokenRequest → HttpResponse)
    (conn : PyDict) (cid cs ar : Option String) (tx : String) (obj : JObj)
    (h1 : dictFind conn "SERVICETITAN_CLIENT_ID" = some cid)
    (h2 : dictFind conn "SERVICETITAN_CLIENT_SECRET" = some cs)
    (h3 : dictFind conn "auth_root" = some ar)
    (hresp : http (tokenRequestOf (pyStr ar) (pyStr cid) (pyStr cs)) = ⟨200, tx⟩)
    (hparse : json_loads tx = .ok obj) :
    (request_auth_token http (pyStr ar) (pyStr cid) (pyStr cs)).outcome
      = Except.ok obj ∧
    (obj.find? (fun p => p.1 == "access_token") = none →
      get_auth_token http conn = Except.error (PyError.keyError "access_token")) := by
  have hout := (request_auth_token_ok http (pyStr ar) (pyStr cid) (pyStr cs)
    tx obj hresp hparse).2
  refine ⟨hout, fun hmiss => ?_⟩
  simp only [get_auth_token, dictIndex, h1, h2, h3, hout, jobjIndex, hmiss]

/-- Witness for C10: a 200 response whose body has no `access_token` key. -/
theorem C10_whole_object_then_keyerror_witness :
    (request_auth_token (fun _ => ⟨200, "\x7b\"token_type\": \"Bearer\"\x7d"⟩)
      "https://auth-integration.servicetitan.io" "cid" "csecret").outcome
      = Except.ok [("token_type", "Bearer")] ∧
    get_auth_token (fun _ => ⟨200, "\x7b\"token_type\": \"Bearer\"\x7d"⟩)
      [("SERVICETITAN_CLIENT_ID", some "cid"),
       ("SERVICETITAN_CLIENT_SECRET", some "csecret"),
       ("auth_root", some "https://auth-integration.servicetitan.io")]
      = Except.error (PyError.keyError "access_token") := by
  have h := C10_whole_object_then_keyerror
    (fun _ => ⟨200, "\x7b\"token_type\": \"Bearer\"\x7d"⟩)
    [("SERVICETITAN_CLIENT_ID", some "cid"),
     ("SERVICETITAN_CLIENT_SECRET", some "csecret"),
     ("auth_root", some "https://auth-integration.servicetitan.io")]
    (some "cid") (some "csecret") (some "https://auth-integration.servicetitan.io")
    "\x7b\"token_type\": \"Bearer\"\x7d" [("token_type", "Bearer")]
    rfl rfl rfl rfl (by rfl)
  exact ⟨h.1, h.2 (by decide)⟩
